import Mathlib

/-!
Shallow embedding of the SuiteQL proxy (backend/main.py and the serverless
handlers api/health.py, api/config.py, api/suiteql.py), together with
theorems settling the specification claims about credential validation,
error classification, masking, and the query endpoints.
-/

/-! ## Python string primitives -/

/-- Python truthiness of an optional string: None and the empty string are falsy. -/
def truthy : Option String → Bool
  | none => false
  | some s => !(s == "")

/-- Python `a or b` on optional strings: `a` when truthy, otherwise `b`. -/
def pyOr (a b : Option String) : Option String :=
  if truthy a then a else b

/-- Characters removed by Python str.strip(). -/
def isPySpace (c : Char) : Bool :=
  c == ' ' || c == '\t' || c == '\n' || c == '\r' || c == '\x0b' || c == '\x0c'

/-- Python str.strip(): drop whitespace from both ends. -/
def pyStrip (s : String) : String :=
  String.mk (((s.toList.dropWhile isPySpace).reverse.dropWhile isPySpace).reverse)

/-- Python s[:n]. -/
def pyTake (n : Nat) (s : String) : String :=
  String.mk (s.toList.take n)

/-- Python s[-n:] (the whole string when it is shorter than n). -/
def pyTakeLast (n : Nat) (s : String) : String :=
  String.mk (s.toList.drop (s.toList.length - n))

/-- Boolean test that the first character list starts the second. -/
def prefixOfChars : List Char → List Char → Bool
  | [], _ => true
  | _ :: _, [] => false
  | a :: as, b :: bs => a == b && prefixOfChars as bs

/-- Boolean test that the first character list occurs contiguously in the second. -/
def subOfChars (pat : List Char) : List Char → Bool
  | [] => prefixOfChars pat []
  | b :: bs => prefixOfChars pat (b :: bs) || subOfChars pat bs

/-- Python `pat in s` substring membership. -/
def strContains (s pat : String) : Bool :=
  subOfChars pat.toList s.toList

/-! ## Data model -/

/-- The five NetSuite credential fields, each an optional string, as they appear
in the process environment or in constructor arguments. -/
structure Credentials where
  account_id : Option String
  consumer_key : Option String
  consumer_secret : Option String
  token_id : Option String
  token_secret : Option String
deriving DecidableEq, Repr

/-- Python `all([account_id, consumer_key, consumer_secret, token_id, token_secret])`. -/
def allConfigured (c : Credentials) : Bool :=
  truthy c.account_id && truthy c.consumer_key && truthy c.consumer_secret &&
    truthy c.token_id && truthy c.token_secret

/-- A credential set with no field supplied: the arguments of the process-start
construction `NetSuiteClient()`. -/
def emptyArgs : Credentials :=
  { account_id := none, consumer_key := none, consumer_secret := none,
    token_id := none, token_secret := none }

/-- The five credential attributes of a constructed NetSuiteClient, as plain strings. -/
structure Creds5 where
  account_id : String
  consumer_key : String
  consumer_secret : String
  token_id : String
  token_secret : String
deriving DecidableEq, Repr

/-- View a request body of five plain strings as constructor arguments. -/
def credsToOptional (c : Creds5) : Credentials :=
  { account_id := some c.account_id, consumer_key := some c.consumer_key,
    consumer_secret := some c.consumer_secret, token_id := some c.token_id,
    token_secret := some c.token_secret }

/-- Force resolved optional credentials to plain strings (missing becomes ""). -/
def forceCreds (c : Credentials) : Creds5 :=
  { account_id := c.account_id.getD "", consumer_key := c.consumer_key.getD "",
    consumer_secret := c.consumer_secret.getD "", token_id := c.token_id.getD "",
    token_secret := c.token_secret.getD "" }

/-- State of a live NetSuiteClient: its five credential attributes plus the
credentials captured inside the cached `self.netsuite` signing context. -/
structure ClientState where
  creds : Creds5
  netsuite : Creds5
deriving DecidableEq, Repr

/-! ## Credential validator (backend/main.py `NetSuiteClient._validate_credentials`) -/

/-- Account ID rule: missing or shorter than 5 characters. -/
def accountIdIssues (c : Creds5) : List String :=
  if c.account_id == "" || c.account_id.length < 5 then
    ["Account ID too short"]
  else []

/-- Consumer Key rule: must be exactly 64 characters. -/
def consumerKeyIssues (c : Creds5) : List String :=
  if c.consumer_key == "" || !(c.consumer_key.length == 64) then
    ["Consumer Key should be 64 characters, got " ++ toString c.consumer_key.length]
  else []

/-- Consumer Secret rule: must be exactly 64 characters. -/
def consumerSecretIssues (c : Creds5) : List String :=
  if c.consumer_secret == "" || !(c.consumer_secret.length == 64) then
    ["Consumer Secret should be 64 characters, got " ++ toString c.consumer_secret.length]
  else []

/-- First issue string appended when the Token ID contains an @ character. -/
def tokenEmailIssue1 : String :=
  "🚨 CRITICAL: Token ID appears to be an email address - it should be a 64-character token"

/-- Second issue string appended when the Token ID contains an @ character. -/
def tokenEmailIssue2 : String :=
  "📋 TO FIX: Go to NetSuite → Setup → Users/Roles → Access Tokens → Generate new token"

/-- Token ID rule: the email check (which appends two strings) takes the first
branch; otherwise the 64-character length check applies. -/
def tokenIdIssues (c : Creds5) : List String :=
  if !(c.token_id == "") && strContains c.token_id "@" then
    [tokenEmailIssue1, tokenEmailIssue2]
  else if c.token_id == "" || !(c.token_id.length == 64) then
    ["Token ID should be 64 characters, got " ++ toString c.token_id.length]
  else []

/-- Token Secret rule: must be exactly 64 characters. -/
def tokenSecretIssues (c : Creds5) : List String :=
  if c.token_secret == "" || !(c.token_secret.length == 64) then
    ["Token Secret should be 64 characters, got " ++ toString c.token_secret.length]
  else []

/-- The ordered issue list accumulated by `NetSuiteClient._validate_credentials`. -/
def validate_credentials_issues (c : Creds5) : List String :=
  accountIdIssues c ++ consumerKeyIssues c ++ consumerSecretIssues c ++
    tokenIdIssues c ++ tokenSecretIssues c

/-- Boolean result of `_validate_credentials`: True exactly when no issue was found. -/
def validate_credentials_ok (c : Creds5) : Bool :=
  validate_credentials_issues c == []

/-! ## Client construction and configuration update (backend/main.py) -/

/-- Constructor argument resolution of `NetSuiteClient.__init__`: each field is
`parameter or os.getenv(NETSUITE_*)`, so a falsy parameter falls back to the
environment value. -/
def resolveCredentials (args env : Credentials) : Credentials :=
  { account_id := pyOr args.account_id env.account_id,
    consumer_key := pyOr args.consumer_key env.consumer_key,
    consumer_secret := pyOr args.consumer_secret env.consumer_secret,
    token_id := pyOr args.token_id env.token_id,
    token_secret := pyOr args.token_secret env.token_secret }

/-- `NetSuiteClient.__init__`: resolve each field against the environment, raise
ValueError (modelled as `none`) when any resolved field is falsy, otherwise
build the client with a signing context over the same credential snapshot. -/
def NetSuiteClient_init (args env : Credentials) : Option ClientState :=
  let r := resolveCredentials args env
  if allConfigured r then
    some { creds := forceCreds r, netsuite := forceCreds r }
  else none

/-- `NetSuiteClient.update_config`: the five credential attributes are assigned
first, then the `self.netsuite` signing context is rebuilt. `rebuildOk = false`
models the rebuild raising, which happens after the field assignments, so the
fields keep the new values while the context keeps the old snapshot. Returns
the resulting state and whether the call raised. -/
def NetSuiteClient_update_config (st : ClientState) (new : Creds5) (rebuildOk : Bool) :
    ClientState × Bool :=
  if rebuildOk then ({ creds := new, netsuite := new }, false)
  else ({ creds := new, netsuite := st.netsuite }, true)

/-- POST /api/config endpoint: update the existing global client in place, or
construct a fresh one when none exists; any exception is answered with HTTP
400. Returns the new global client state and the HTTP status. -/
def update_config_endpoint (st : Option ClientState) (req : Creds5) (env : Credentials)
    (rebuildOk : Bool) : Option ClientState × Nat :=
  match st with
  | some client =>
    let r := NetSuiteClient_update_config client req rebuildOk
    (some r.1, if r.2 then 400 else 200)
  | none =>
    match NetSuiteClient_init (credsToOptional req) env with
    | some c => (some c, 200)
    | none => (none, 400)

/-! ## Masked introspection endpoints (backend/main.py) -/

/-- Response of GET /api/config. -/
inductive ConfigResponse where
  | notConfigured
  | configured (account_id consumer_key consumer_secret token_id token_secret : String)
deriving DecidableEq, Repr

/-- The fixed placeholder string used by GET /api/config. -/
def maskPlaceholder : String := "••••••••"

/-- GET /api/config (`get_current_config`): account_id verbatim, each secret
field replaced by the fixed placeholder when non-empty. -/
def get_current_config (st : Option ClientState) : ConfigResponse :=
  match st with
  | none => ConfigResponse.notConfigured
  | some c =>
    ConfigResponse.configured c.creds.account_id
      (if !(c.creds.consumer_key == "") then maskPlaceholder else "")
      (if !(c.creds.consumer_secret == "") then maskPlaceholder else "")
      (if !(c.creds.token_id == "") then maskPlaceholder else "")
      (if !(c.creds.token_secret == "") then maskPlaceholder else "")

/-- Python f-string preview s[:a] ++ "..." ++ s[-b:]. -/
def maskPreview (a b : Nat) (s : String) : String :=
  pyTake a s ++ "..." ++ pyTakeLast b s

/-- Response of GET /api/debug-auth. -/
inductive DebugAuthResponse where
  | notConfigured
  | configured (account_id : String)
      (consumer_key consumer_secret token_id token_secret : Option String)
deriving DecidableEq, Repr

/-- GET /api/debug-auth (`debug_auth`): first 8 and last 4 characters of
consumer_key and token_id, first 4 and last 4 of the two secrets, None for an
empty field; account_id verbatim. -/
def debug_auth (st : Option ClientState) : DebugAuthResponse :=
  match st with
  | none => DebugAuthResponse.notConfigured
  | some c =>
    DebugAuthResponse.configured c.creds.account_id
      (if !(c.creds.consumer_key == "") then some (maskPreview 8 4 c.creds.consumer_key) else none)
      (if !(c.creds.consumer_secret == "") then some (maskPreview 4 4 c.creds.consumer_secret) else none)
      (if !(c.creds.token_id == "") then some (maskPreview 8 4 c.creds.token_id) else none)
      (if !(c.creds.token_secret == "") then some (maskPreview 4 4 c.creds.token_secret) else none)

/-! ## Query proxy and handlers -/

/-- Outcome of the single outbound vendor call: a successful body, or a raised
exception carrying its message string. -/
inductive VendorOutcome (α : Type) where
  | ok (body : α)
  | err (msg : String)
deriving DecidableEq, Repr

/-- JSON body written by the query handlers: the success envelope or a failure. -/
inductive QueryResponse (α : Type) where
  | failure (error : String)
  | success (data : α) (query : String) (parameters : Option (List (String × String)))
deriving DecidableEq, Repr

/-- Result of one query-handler invocation: HTTP status, response body, and
whether the vendor endpoint was contacted. -/
structure HandlerResult (α : Type) where
  status : Nat
  body : QueryResponse α
  networkCalled : Bool
deriving DecidableEq, Repr

/-- Response body of the health handlers. -/
structure HealthResponse where
  status : String
  netsuite_configured : Bool
  library : String
deriving DecidableEq, Repr

/-- api/health.py `handler.do_GET`: configured exactly when all five environment
credential fields are truthy. -/
def health_do_GET (env : Credentials) : HealthResponse :=
  { status := "healthy", netsuite_configured := allConfigured env,
    library := "netsuite-python" }

/-- GET /health (backend/main.py): configured exactly when the global client exists. -/
def backend_health (st : Option ClientState) : HealthResponse :=
  { status := "healthy", netsuite_configured := st.isSome,
    library := "netsuite-python" }

/-- api/suiteql.py `handler.do_POST`: check the environment credentials, then the
stripped query, then perform the single vendor call; the success envelope
carries the stripped query and the original parameters. -/
def suiteql_do_POST (α : Type) (env : Credentials) (query0 : String)
    (parameters : Option (List (String × String))) (vendor : VendorOutcome α) :
    HandlerResult α :=
  if !(allConfigured env) then
    { status := 500, body := QueryResponse.failure "NetSuite credentials not configured",
      networkCalled := false }
  else
    let query := pyStrip query0
    if query == "" then
      { status := 400, body := QueryResponse.failure "Query cannot be empty",
        networkCalled := false }
    else
      match vendor with
      | VendorOutcome.ok result =>
        { status := 200, body := QueryResponse.success result query parameters,
          networkCalled := true }
      | VendorOutcome.err msg =>
        { status := 500, body := QueryResponse.failure msg, networkCalled := true }

/-- Detail string of the 401 HTTPException raised by `NetSuiteClient.execute_suiteql`. -/
def authFailDetail : String :=
  "NetSuite authentication failed. Please verify: 1) Consumer Key/Secret are correct, 2) Token ID/Secret are correct, 3) Integration record is active, 4) User role has SuiteQL permissions."

/-- Detail string of the 403 HTTPException raised by `NetSuiteClient.execute_suiteql`;
the single quotation marks around SuiteQL in the source literal are elided. -/
def permDeniedDetail : String :=
  "NetSuite access denied. Please check your SuiteQL permissions and ensure the role assigned to the integration has SuiteQL permission enabled."

/-- Error classification in `NetSuiteClient.execute_suiteql` (backend/main.py):
match the exception message against the 401/INVALID_LOGIN markers first, then
the 403/Forbidden markers, else 500 carrying the raw message. -/
def classify_suiteql_error (msg : String) : Nat × String :=
  if strContains msg "401" || strContains msg "INVALID_LOGIN" then
    (401, authFailDetail)
  else if strContains msg "403" || strContains msg "Forbidden" then
    (403, permDeniedDetail)
  else
    (500, "NetSuite API error: " ++ msg)

/-- `NetSuiteClient.execute_suiteql`: return the vendor body on success,
otherwise raise the classified HTTPException. -/
def NetSuiteClient_execute_suiteql (α : Type) (vendor : VendorOutcome α) :
    Except (Nat × String) α :=
  match vendor with
  | VendorOutcome.ok body => Except.ok body
  | VendorOutcome.err msg => Except.error (classify_suiteql_error msg)

/-- POST /api/suiteql endpoint (backend/main.py): 500 when the global client is
missing, 400 when the stripped query is empty, otherwise one vendor call whose
success envelope carries the original query and parameters. -/
def execute_suiteql_endpoint (α : Type) (st : Option ClientState) (query : String)
    (parameters : Option (List (String × String))) (vendor : VendorOutcome α) :
    HandlerResult α :=
  match st with
  | none =>
    { status := 500, body := QueryResponse.failure "NetSuite client not configured",
      networkCalled := false }
  | some _ =>
    if pyStrip query == "" then
      { status := 400, body := QueryResponse.failure "Query cannot be empty",
        networkCalled := false }
    else
      match NetSuiteClient_execute_suiteql α vendor with
      | Except.ok result =>
        { status := 200, body := QueryResponse.success result query parameters,
          networkCalled := true }
      | Except.error e =>
        { status := e.1, body := QueryResponse.failure e.2, networkCalled := true }

/-! ## Concrete states used by counterexamples and witnesses -/

/-- A 64-character consumer key value. -/
def k64 : String := "K123456789012345678901234567890123456789012345678901234567890123"

/-- A 64-character consumer secret value. -/
def s64 : String := "S123456789012345678901234567890123456789012345678901234567890123"

/-- A 64-character token id value. -/
def t64 : String := "T123456789012345678901234567890123456789012345678901234567890123"

/-- A 64-character token secret value. -/
def u64 : String := "U123456789012345678901234567890123456789012345678901234567890123"

/-- A fully well-formed credential set. -/
def goodCreds : Creds5 :=
  { account_id := "ACCT123456", consumer_key := k64, consumer_secret := s64,
    token_id := t64, token_secret := u64 }

/-- A credential set whose only flaw is an email-shaped token id. -/
def emailTokenCreds : Creds5 :=
  { account_id := "ACCT123456", consumer_key := k64, consumer_secret := s64,
    token_id := "user@example.com", token_secret := u64 }

/-- A credential set with short secrets, used against the debug-auth previews. -/
def shortCreds : Creds5 :=
  { account_id := "ACCT123456", consumer_key := "abcdefgh", consumer_secret := "wxyz",
    token_id := "qrstuvwx", token_secret := "mnop" }

/-- A client state holding the well-formed credentials with a matching context. -/
def goodState : ClientState := { creds := goodCreds, netsuite := goodCreds }

/-- A client state holding the short credentials with a matching context. -/
def shortState : ClientState := { creds := shortCreds, netsuite := shortCreds }

/-- An environment providing all five credential fields. -/
def envConfigured : Credentials := credsToOptional goodCreds

/-- A replacement credential set distinct from `goodCreds`. -/
def newCreds : Creds5 :=
  { account_id := "NEWACCT99", consumer_key := "newkey", consumer_secret := "newsecret",
    token_id := "newtoken", token_secret := "newtokensecret" }

/-- An environment missing only the consumer key. -/
def envMissingKey : Credentials :=
  { account_id := some "ACCT123456", consumer_key := none, consumer_secret := some s64,
    token_id := some t64, token_secret := some u64 }

/-- A second well-formed credential set sharing the account id with `goodCreds`
but holding different secret values. -/
def altCreds : Creds5 :=
  { account_id := "ACCT123456", consumer_key := u64, consumer_secret := t64,
    token_id := s64, token_secret := k64 }

/-- A client state over `altCreds`. -/
def altState : ClientState := { creds := altCreds, netsuite := altCreds }

/-- Constructor arguments supplying an explicit empty account id. -/
def argsEmptyAcct : Credentials :=
  { account_id := some "", consumer_key := some "ck", consumer_secret := some "cs",
    token_id := some "ti", token_secret := some "ts" }

/-- The credential set resolved from `argsEmptyAcct` against `envConfigured`. -/
def resolvedCreds : Creds5 :=
  { account_id := "ACCT123456", consumer_key := "ck", consumer_secret := "cs",
    token_id := "ti", token_secret := "ts" }

/-- The client installed from `argsEmptyAcct` against `envConfigured`. -/
def stResolved : ClientState := { creds := resolvedCreds, netsuite := resolvedCreds }

/-! ## Helper lemmas -/

theorem prefixOfChars_length {p t : List Char} (h : prefixOfChars p t = true) :
    p.length ≤ t.length := by
  induction p generalizing t with
  | nil => simp
  | cons a as ih =>
    cases t with
    | nil => simp [prefixOfChars] at h
    | cons b bs =>
      simp only [prefixOfChars, Bool.and_eq_true] at h
      simpa using ih h.2

theorem subOfChars_length {p t : List Char} (h : subOfChars p t = true) :
    p.length ≤ t.length := by
  induction t with
  | nil => simpa using prefixOfChars_length h
  | cons b bs ih =>
    simp only [subOfChars, Bool.or_eq_true] at h
    cases h with
    | inl h => exact prefixOfChars_length h
    | inr h => exact le_trans (ih h) (by simp)

theorem strContains_length {s pat : String} (h : strContains s pat = true) :
    pat.toList.length ≤ s.toList.length :=
  subOfChars_length h

theorem pyTake_toList (n : Nat) (s : String) : (pyTake n s).toList = s.toList.take n := rfl

theorem pyTakeLast_toList (n : Nat) (s : String) :
    (pyTakeLast n s).toList = s.toList.drop (s.toList.length - n) := rfl

theorem maskPreview_length (a b : Nat) (s : String) :
    (maskPreview a b s).toList.length ≤ a + 3 + b := by
  have : (maskPreview a b s).toList = (pyTake a s).toList ++ "...".toList ++ (pyTakeLast b s).toList := rfl
  rw [this]
  simp only [List.length_append, pyTake_toList, pyTakeLast_toList, List.length_take,
    List.length_drop]
  have h1 : min a s.toList.length ≤ a := Nat.min_le_left _ _
  have h2 : s.toList.length - (s.toList.length - b) ≤ b := by omega
  have h3 : ("...".toList).length = 3 := rfl
  omega

theorem maskPreview_no_reveal {a b : Nat} {s : String} (h : a + 3 + b < s.toList.length) :
    strContains (maskPreview a b s) s = false := by
  by_contra hc
  have hc' : strContains (maskPreview a b s) s = true := by
    cases hmp : strContains (maskPreview a b s) s with
    | false => exact absurd hmp hc
    | true => rfl
  have := strContains_length hc'
  have := maskPreview_length a b s
  omega

theorem allConfigured_eq_false {env : Credentials}
    (h : truthy env.account_id = false ∨ truthy env.consumer_key = false ∨
      truthy env.consumer_secret = false ∨ truthy env.token_id = false ∨
      truthy env.token_secret = false) :
    allConfigured env = false := by
  simp only [allConfigured, Bool.and_eq_false_iff]
  rcases h with h | h | h | h | h <;> simp [h]

theorem beq_empty_false_of_pos {s : String} (h : 0 < s.length) : (s == "") = false := by
  cases hb : (s == "") with
  | true =>
    have hs := eq_of_beq hb
    rw [hs] at h
    exact absurd h (by decide)
  | false => rfl

theorem toList_length_eq (s : String) : s.toList.length = s.length := rfl

theorem tokenIdIssues_of_contains {c : Creds5} (h : strContains c.token_id "@" = true) :
    tokenIdIssues c = [tokenEmailIssue1, tokenEmailIssue2] := by
  have hne : (c.token_id == "") = false := by
    cases hb : (c.token_id == "") with
    | true =>
      have he : c.token_id = "" := eq_of_beq hb
      rw [he] at h
      exact absurd h (by decide)
    | false => rfl
  simp [tokenIdIssues, hne, h]

theorem tokenIdIssues_of_not_contains {c : Creds5} (h : strContains c.token_id "@" = false) :
    tokenIdIssues c =
      (if c.token_id == "" || !(c.token_id.length == 64) then
        ["Token ID should be 64 characters, got " ++ toString c.token_id.length]
      else []) := by
  simp [tokenIdIssues, h]

/-! ## Claim theorems -/

/-- C1: for every credential set with at least one of the five fields missing
(falsy), the serverless health handler reports not-configured, the serverless
query handler answers the 500 not-configured error without a network call, the
process-start client construction fails so the backend health endpoint also
reports not-configured, and the backend query endpoint without a client answers
the 500 not-configured error without a network call. -/
theorem C1_missing_config (α : Type) (env : Credentials) (q : String)
    (p : Option (List (String × String))) (v : VendorOutcome α)
    (h : truthy env.account_id = false ∨ truthy env.consumer_key = false ∨
      truthy env.consumer_secret = false ∨ truthy env.token_id = false ∨
      truthy env.token_secret = false) :
    (health_do_GET env).netsuite_configured = false ∧
    suiteql_do_POST α env q p v =
      { status := 500, body := QueryResponse.failure "NetSuite credentials not configured",
        networkCalled := false } ∧
    NetSuiteClient_init emptyArgs env = none ∧
    (backend_health (NetSuiteClient_init emptyArgs env)).netsuite_configured = false ∧
    execute_suiteql_endpoint α none q p v =
      { status := 500, body := QueryResponse.failure "NetSuite client not configured",
        networkCalled := false } := by
  have hac := allConfigured_eq_false h
  have hres : resolveCredentials emptyArgs env = env := by
    simp [resolveCredentials, emptyArgs, pyOr, truthy]
  refine ⟨?_, ?_, ?_, ?_, rfl⟩
  · simp [health_do_GET, hac]
  · simp [suiteql_do_POST, hac]
  · simp [NetSuiteClient_init, hres, hac]
  · simp [backend_health, NetSuiteClient_init, hres, hac]

/-- Witness for C1 at an environment missing only the consumer key. -/
theorem C1_missing_config_witness :
    truthy envMissingKey.consumer_key = false ∧
    ((health_do_GET envMissingKey).netsuite_configured = false ∧
    suiteql_do_POST Nat envMissingKey "SELECT 1" none (VendorOutcome.err "boom") =
      { status := 500, body := QueryResponse.failure "NetSuite credentials not configured",
        networkCalled := false } ∧
    NetSuiteClient_init emptyArgs envMissingKey = none ∧
    (backend_health (NetSuiteClient_init emptyArgs envMissingKey)).netsuite_configured = false ∧
    execute_suiteql_endpoint Nat none "SELECT 1" none (VendorOutcome.err "boom") =
      { status := 500, body := QueryResponse.failure "NetSuite client not configured",
        networkCalled := false }) :=
  ⟨rfl, C1_missing_config Nat envMissingKey "SELECT 1" none (VendorOutcome.err "boom")
    (Or.inr (Or.inl rfl))⟩

/-- C2 counterexample: with no credentials configured and a whitespace-only
query, the serverless query handler answers the 500 not-configured error, not
the 400 empty-query error the claim requires for every credential state. -/
theorem C2_counterexample :
    suiteql_do_POST Nat emptyArgs "   " none (VendorOutcome.err "boom") =
      { status := 500, body := QueryResponse.failure "NetSuite credentials not configured",
        networkCalled := false } ∧
    (suiteql_do_POST Nat emptyArgs "   " none (VendorOutcome.err "boom")).status ≠ 400 ∧
    (suiteql_do_POST Nat emptyArgs "   " none (VendorOutcome.err "boom")).body ≠
      QueryResponse.failure "Query cannot be empty" :=
  ⟨rfl, by decide, by decide⟩

/-- C2 (amended): an empty or whitespace-only query is answered with the 400
empty-query error when the credentials are configured (serverless) or a client
exists (backend); in every credential state no network call is made, but in the
not-configured state the 500 not-configured error takes precedence. -/
theorem C2_empty_query (α : Type) (env : Credentials) (stO : Option ClientState)
    (st : ClientState) (q : String) (p : Option (List (String × String)))
    (v : VendorOutcome α) (hq : pyStrip q = "") :
    (allConfigured env = true → suiteql_do_POST α env q p v =
      { status := 400, body := QueryResponse.failure "Query cannot be empty",
        networkCalled := false }) ∧
    (allConfigured env = false → suiteql_do_POST α env q p v =
      { status := 500, body := QueryResponse.failure "NetSuite credentials not configured",
        networkCalled := false }) ∧
    (suiteql_do_POST α env q p v).networkCalled = false ∧
    execute_suiteql_endpoint α (some st) q p v =
      { status := 400, body := QueryResponse.failure "Query cannot be empty",
        networkCalled := false } ∧
    execute_suiteql_endpoint α none q p v =
      { status := 500, body := QueryResponse.failure "NetSuite client not configured",
        networkCalled := false } ∧
    (execute_suiteql_endpoint α stO q p v).networkCalled = false := by
  refine ⟨?_, ?_, ?_, ?_, rfl, ?_⟩
  · intro hc
    simp [suiteql_do_POST, hc, hq]
  · intro hc
    simp [suiteql_do_POST, hc]
  · cases hc : allConfigured env <;> simp [suiteql_do_POST, hc, hq]
  · simp [execute_suiteql_endpoint, hq]
  · cases stO <;> simp [execute_suiteql_endpoint, hq]

/-- Witness for C2 at a whitespace-only query with configured credentials. -/
theorem C2_empty_query_witness :
    pyStrip "   " = "" ∧ allConfigured envConfigured = true ∧
    ((allConfigured envConfigured = true →
      suiteql_do_POST Nat envConfigured "   " none (VendorOutcome.err "boom") =
      { status := 400, body := QueryResponse.failure "Query cannot be empty",
        networkCalled := false }) ∧
    (allConfigured envConfigured = false →
      suiteql_do_POST Nat envConfigured "   " none (VendorOutcome.err "boom") =
      { status := 500, body := QueryResponse.failure "NetSuite credentials not configured",
        networkCalled := false }) ∧
    (suiteql_do_POST Nat envConfigured "   " none (VendorOutcome.err "boom")).networkCalled = false ∧
    execute_suiteql_endpoint Nat (some goodState) "   " none (VendorOutcome.err "boom") =
      { status := 400, body := QueryResponse.failure "Query cannot be empty",
        networkCalled := false } ∧
    execute_suiteql_endpoint Nat none "   " none (VendorOutcome.err "boom") =
      { status := 500, body := QueryResponse.failure "NetSuite client not configured",
        networkCalled := false } ∧
    (execute_suiteql_endpoint Nat (some goodState) "   " none
      (VendorOutcome.err "boom")).networkCalled = false) :=
  ⟨by decide, by decide,
    C2_empty_query Nat envConfigured (some goodState) goodState "   " none
      (VendorOutcome.err "boom") (by decide)⟩

/-- C3: the proxy classifies the message of a failed vendor call by markers: a
401 or INVALID_LOGIN marker yields the 401 auth error, otherwise a 403 or
Forbidden marker yields the 403 permission error, otherwise the 500 upstream
error carrying the raw message; a successful call passes its body through. -/
theorem C3_error_classification (α : Type) (msg : String) :
    ((strContains msg "401" = true ∨ strContains msg "INVALID_LOGIN" = true) →
      NetSuiteClient_execute_suiteql α (VendorOutcome.err msg) =
        Except.error (401, authFailDetail)) ∧
    (strContains msg "401" = false → strContains msg "INVALID_LOGIN" = false →
      (strContains msg "403" = true ∨ strContains msg "Forbidden" = true) →
      NetSuiteClient_execute_suiteql α (VendorOutcome.err msg) =
        Except.error (403, permDeniedDetail)) ∧
    (strContains msg "401" = false → strContains msg "INVALID_LOGIN" = false →
      strContains msg "403" = false → strContains msg "Forbidden" = false →
      NetSuiteClient_execute_suiteql α (VendorOutcome.err msg) =
        Except.error (500, "NetSuite API error: " ++ msg)) ∧
    (∀ b : α, NetSuiteClient_execute_suiteql α (VendorOutcome.ok b) = Except.ok b) := by
  refine ⟨?_, ?_, ?_, fun b => rfl⟩
  · rintro (h | h) <;>
      simp [NetSuiteClient_execute_suiteql, classify_suiteql_error, h]
  · rintro h1 h2 (h | h) <;>
      simp [NetSuiteClient_execute_suiteql, classify_suiteql_error, h1, h2, h]
  · intro h1 h2 h3 h4
    simp [NetSuiteClient_execute_suiteql, classify_suiteql_error, h1, h2, h3, h4]

/-- Witness for C3 at a message carrying the 401 marker. -/
theorem C3_error_classification_witness :
    strContains "HTTP 401 Client Error" "401" = true ∧
    NetSuiteClient_execute_suiteql Nat (VendorOutcome.err "HTTP 401 Client Error") =
      Except.error (401, authFailDetail) :=
  ⟨by decide,
    (C3_error_classification Nat "HTTP 401 Client Error").1 (Or.inl (by decide))⟩

/-- C4 counterexample: on a successful vendor call the serverless query handler
echoes the whitespace-trimmed query in the envelope, not the original query
string. -/
theorem C4_counterexample :
    suiteql_do_POST Nat envConfigured " SELECT 1" none (VendorOutcome.ok 7) =
      { status := 200, body := QueryResponse.success 7 "SELECT 1" none,
        networkCalled := true } ∧
    "SELECT 1" ≠ " SELECT 1" :=
  ⟨by decide, by decide⟩

/-- C4 (amended): on a successful vendor call with a non-empty query, both query
endpoints return the success envelope with the vendor body unmodified and the
original parameters; the backend endpoint echoes the original query string
while the serverless handler echoes the whitespace-trimmed query. -/
theorem C4_success_envelope (α : Type) (env : Credentials) (st : ClientState)
    (q : String) (p : Option (List (String × String))) (b : α)
    (henv : allConfigured env = true) (hq : ¬(pyStrip q = "")) :
    suiteql_do_POST α env q p (VendorOutcome.ok b) =
      { status := 200, body := QueryResponse.success b (pyStrip q) p,
        networkCalled := true } ∧
    execute_suiteql_endpoint α (some st) q p (VendorOutcome.ok b) =
      { status := 200, body := QueryResponse.success b q p, networkCalled := true } := by
  constructor
  · simp [suiteql_do_POST, henv, hq]
  · simp [execute_suiteql_endpoint, hq, NetSuiteClient_execute_suiteql]

/-- Witness for C4 at a concrete configured environment and query. -/
theorem C4_success_envelope_witness :
    allConfigured envConfigured = true ∧ ¬(pyStrip "SELECT 1" = "") ∧
    (suiteql_do_POST Nat envConfigured "SELECT 1" none (VendorOutcome.ok 7) =
      { status := 200, body := QueryResponse.success 7 (pyStrip "SELECT 1") none,
        networkCalled := true } ∧
    execute_suiteql_endpoint Nat (some goodState) "SELECT 1" none (VendorOutcome.ok 7) =
      { status := 200, body := QueryResponse.success 7 "SELECT 1" none,
        networkCalled := true }) :=
  ⟨by decide, by decide,
    C4_success_envelope Nat envConfigured goodState "SELECT 1" none 7 (by decide) (by decide)⟩

/-- C5 counterexample: GET /api/config echoes the stored account_id — one of the
five credential fields — verbatim, not as the fixed placeholder. -/
theorem C5_counterexample :
    get_current_config (some goodState) =
      ConfigResponse.configured "ACCT123456" maskPlaceholder maskPlaceholder
        maskPlaceholder maskPlaceholder ∧
    goodState.creds.account_id = "ACCT123456" :=
  ⟨by decide, rfl⟩

/-- C5 (amended): GET /api/config masks the four secret fields with the fixed
placeholder and reveals nothing of their values (states agreeing on account_id
and on which secrets are empty get identical responses), but it reports the
account_id field verbatim. -/
theorem C5_config_masking (st st' : ClientState)
    (ha : st.creds.account_id = st'.creds.account_id)
    (h1 : (st.creds.consumer_key == "") = (st'.creds.consumer_key == ""))
    (h2 : (st.creds.consumer_secret == "") = (st'.creds.consumer_secret == ""))
    (h3 : (st.creds.token_id == "") = (st'.creds.token_id == ""))
    (h4 : (st.creds.token_secret == "") = (st'.creds.token_secret == "")) :
    get_current_config (some st) = get_current_config (some st') ∧
    (∀ a r1 r2 r3 r4,
      get_current_config (some st) = ConfigResponse.configured a r1 r2 r3 r4 →
      a = st.creds.account_id ∧
      (r1 = maskPlaceholder ∨ r1 = "") ∧ (r2 = maskPlaceholder ∨ r2 = "") ∧
      (r3 = maskPlaceholder ∨ r3 = "") ∧ (r4 = maskPlaceholder ∨ r4 = "")) := by
  constructor
  · simp only [get_current_config, ha, h1, h2, h3, h4]
  · intro a r1 r2 r3 r4 h
    simp only [get_current_config, ConfigResponse.configured.injEq] at h
    obtain ⟨hA, hR1, hR2, hR3, hR4⟩ := h
    refine ⟨hA.symm, ?_, ?_, ?_, ?_⟩
    · cases hc : (st.creds.consumer_key == "") <;> rw [hc] at hR1 <;> simp at hR1 <;>
        simp [hR1]
    · cases hc : (st.creds.consumer_secret == "") <;> rw [hc] at hR2 <;> simp at hR2 <;>
        simp [hR2]
    · cases hc : (st.creds.token_id == "") <;> rw [hc] at hR3 <;> simp at hR3 <;>
        simp [hR3]
    · cases hc : (st.creds.token_secret == "") <;> rw [hc] at hR4 <;> simp at hR4 <;>
        simp [hR4]

/-- Witness for C5 at two states sharing the account id but holding different
secret values. -/
theorem C5_config_masking_witness :
    goodState.creds.account_id = altState.creds.account_id ∧
    goodState.creds.consumer_key ≠ altState.creds.consumer_key ∧
    (get_current_config (some goodState) = get_current_config (some altState) ∧
    (∀ a r1 r2 r3 r4,
      get_current_config (some goodState) = ConfigResponse.configured a r1 r2 r3 r4 →
      a = goodState.creds.account_id ∧
      (r1 = maskPlaceholder ∨ r1 = "") ∧ (r2 = maskPlaceholder ∨ r2 = "") ∧
      (r3 = maskPlaceholder ∨ r3 = "") ∧ (r4 = maskPlaceholder ∨ r4 = ""))) :=
  ⟨rfl, by decide,
    C5_config_masking goodState altState rfl (by decide) (by decide) (by decide) (by decide)⟩

/-- C6 counterexample: for secrets short enough, the debug-auth previews contain
the full secret value (here the whole 8-character consumer key and the whole
4-character consumer secret appear inside their previews). -/
theorem C6_counterexample :
    debug_auth (some shortState) = DebugAuthResponse.configured "ACCT123456"
      (some "abcdefgh...efgh") (some "wxyz...wxyz") (some "qrstuvwx...uvwx")
      (some "mnop...mnop") ∧
    strContains "abcdefgh...efgh" shortState.creds.consumer_key = true ∧
    strContains "wxyz...wxyz" shortState.creds.consumer_secret = true :=
  ⟨by decide, by decide, by decide⟩

/-- C6 (amended): for each secret of length at least 16 — in particular the
expected 64-character values — the debug-auth response holds only the
first-8/last-4 (keys) or first-4/last-4 (secrets) previews, and no preview
contains the corresponding full secret value. -/
theorem C6_preview_masking (st : ClientState)
    (h1 : 16 ≤ st.creds.consumer_key.toList.length)
    (h2 : 16 ≤ st.creds.consumer_secret.toList.length)
    (h3 : 16 ≤ st.creds.token_id.toList.length)
    (h4 : 16 ≤ st.creds.token_secret.toList.length) :
    debug_auth (some st) = DebugAuthResponse.configured st.creds.account_id
      (some (maskPreview 8 4 st.creds.consumer_key))
      (some (maskPreview 4 4 st.creds.consumer_secret))
      (some (maskPreview 8 4 st.creds.token_id))
      (some (maskPreview 4 4 st.creds.token_secret)) ∧
    strContains (maskPreview 8 4 st.creds.consumer_key) st.creds.consumer_key = false ∧
    strContains (maskPreview 4 4 st.creds.consumer_secret) st.creds.consumer_secret = false ∧
    strContains (maskPreview 8 4 st.creds.token_id) st.creds.token_id = false ∧
    strContains (maskPreview 4 4 st.creds.token_secret) st.creds.token_secret = false := by
  have ne1 : (st.creds.consumer_key == "") = false :=
    beq_empty_false_of_pos (by rw [← toList_length_eq]; omega)
  have ne2 : (st.creds.consumer_secret == "") = false :=
    beq_empty_false_of_pos (by rw [← toList_length_eq]; omega)
  have ne3 : (st.creds.token_id == "") = false :=
    beq_empty_false_of_pos (by rw [← toList_length_eq]; omega)
  have ne4 : (st.creds.token_secret == "") = false :=
    beq_empty_false_of_pos (by rw [← toList_length_eq]; omega)
  refine ⟨by simp [debug_auth, ne1, ne2, ne3, ne4], ?_, ?_, ?_, ?_⟩
  · exact maskPreview_no_reveal (by omega)
  · exact maskPreview_no_reveal (by omega)
  · exact maskPreview_no_reveal (by omega)
  · exact maskPreview_no_reveal (by omega)

/-- Witness for C6 at the 64-character credential set. -/
theorem C6_preview_masking_witness :
    16 ≤ goodState.creds.consumer_key.toList.length ∧
    16 ≤ goodState.creds.consumer_secret.toList.length ∧
    16 ≤ goodState.creds.token_id.toList.length ∧
    16 ≤ goodState.creds.token_secret.toList.length ∧
    (debug_auth (some goodState) = DebugAuthResponse.configured goodState.creds.account_id
      (some (maskPreview 8 4 goodState.creds.consumer_key))
      (some (maskPreview 4 4 goodState.creds.consumer_secret))
      (some (maskPreview 8 4 goodState.creds.token_id))
      (some (maskPreview 4 4 goodState.creds.token_secret)) ∧
    strContains (maskPreview 8 4 goodState.creds.consumer_key)
      goodState.creds.consumer_key = false ∧
    strContains (maskPreview 4 4 goodState.creds.consumer_secret)
      goodState.creds.consumer_secret = false ∧
    strContains (maskPreview 8 4 goodState.creds.token_id)
      goodState.creds.token_id = false ∧
    strContains (maskPreview 4 4 goodState.creds.token_secret)
      goodState.creds.token_secret = false) :=
  ⟨by decide, by decide, by decide, by decide,
    C6_preview_masking goodState (by decide) (by decide) (by decide) (by decide)⟩

/-- C7 counterexample: a failed in-place configuration update (HTTP 400) leaves
the stored credential fields already replaced by the new set while the signing
context still holds the old credentials, so the previous credential set does
not remain unchanged and the state mixes old and new. -/
theorem C7_counterexample :
    update_config_endpoint (some goodState) newCreds emptyArgs false =
      (some { creds := newCreds, netsuite := goodCreds }, 400) ∧
    newCreds ≠ goodCreds :=
  ⟨by decide, by decide⟩

/-- C7 (amended): a successful POST /api/config on an existing client installs
the complete new credential set with a freshly rebuilt signing context over the
same set; when the rebuild raises, the credential fields are already replaced
while the context keeps the old snapshot, and the endpoint answers 400; on the
no-client path a failed construction leaves the state unconfigured, and a
successful one installs a client whose context matches its credentials. -/
theorem C7_config_update (st : ClientState) (req : Creds5) (env : Credentials) (rb : Bool) :
    update_config_endpoint (some st) req env true =
      (some { creds := req, netsuite := req }, 200) ∧
    update_config_endpoint (some st) req env false =
      (some { creds := req, netsuite := st.netsuite }, 400) ∧
    (NetSuiteClient_init (credsToOptional req) env = none →
      update_config_endpoint none req env rb = (none, 400)) ∧
    (∀ c, NetSuiteClient_init (credsToOptional req) env = some c →
      update_config_endpoint none req env rb = (some c, 200) ∧ c.netsuite = c.creds) := by
  refine ⟨rfl, rfl, ?_, ?_⟩
  · intro h
    simp [update_config_endpoint, h]
  · intro c h
    refine ⟨by simp [update_config_endpoint, h], ?_⟩
    by_cases hc : allConfigured (resolveCredentials (credsToOptional req) env) = true
    · simp only [NetSuiteClient_init, hc, if_true, Option.some.injEq] at h
      rw [← h]
    · simp [NetSuiteClient_init, hc] at h

/-- Witness for C7 at a fresh construction from a complete request. -/
theorem C7_config_update_witness :
    NetSuiteClient_init (credsToOptional newCreds) emptyArgs =
      some { creds := newCreds, netsuite := newCreds } ∧
    (update_config_endpoint none newCreds emptyArgs true =
      (some { creds := newCreds, netsuite := newCreds }, 200) ∧
    ClientState.netsuite { creds := newCreds, netsuite := newCreds } =
      ClientState.creds { creds := newCreds, netsuite := newCreds }) :=
  ⟨by decide,
    (C7_config_update goodState newCreds emptyArgs true).2.2.2
      { creds := newCreds, netsuite := newCreds } (by decide)⟩

/-- C8: a token_id containing the @ character is flagged with the email-format
issue, which suppresses its length check; a token_id without @ gets exactly the
64-character length check. -/
theorem C8_token_email_priority (c : Creds5) :
    (strContains c.token_id "@" = true →
      tokenIdIssues c = [tokenEmailIssue1, tokenEmailIssue2] ∧
      tokenEmailIssue1 ∈ validate_credentials_issues c) ∧
    (strContains c.token_id "@" = false →
      tokenIdIssues c =
        (if c.token_id == "" || !(c.token_id.length == 64) then
          ["Token ID should be 64 characters, got " ++ toString c.token_id.length]
        else [])) := by
  constructor
  · intro h
    have ht := tokenIdIssues_of_contains h
    exact ⟨ht, by simp [validate_credentials_issues, ht]⟩
  · intro h
    exact tokenIdIssues_of_not_contains h

/-- Witness for C8 at an email-shaped token id. -/
theorem C8_token_email_priority_witness :
    strContains emailTokenCreds.token_id "@" = true ∧
    (tokenIdIssues emailTokenCreds = [tokenEmailIssue1, tokenEmailIssue2] ∧
      tokenEmailIssue1 ∈ validate_credentials_issues emailTokenCreds) :=
  ⟨by decide, (C8_token_email_priority emailTokenCreds).1 (by decide)⟩

/-- C9 counterexample: a credential set whose only failing field is an
email-shaped token_id yields two issue strings, not the single issue per
failing field the claim requires. -/
theorem C9_counterexample :
    accountIdIssues emailTokenCreds = [] ∧
    consumerKeyIssues emailTokenCreds = [] ∧
    consumerSecretIssues emailTokenCreds = [] ∧
    tokenSecretIssues emailTokenCreds = [] ∧
    validate_credentials_issues emailTokenCreds = [tokenEmailIssue1, tokenEmailIssue2] ∧
    (validate_credentials_issues emailTokenCreds).length = 2 :=
  ⟨by decide, by decide, by decide, by decide, by decide, by decide⟩

/-- C9 (amended): each validation rule contributes at most one issue string,
except the token_id email rule, which contributes exactly two; a fully
well-formed credential set yields an empty issue list and a passing result. -/
theorem C9_rule_issue_counts (c : Creds5) :
    (accountIdIssues c).length ≤ 1 ∧ (consumerKeyIssues c).length ≤ 1 ∧
    (consumerSecretIssues c).length ≤ 1 ∧ (tokenSecretIssues c).length ≤ 1 ∧
    (strContains c.token_id "@" = false → (tokenIdIssues c).length ≤ 1) ∧
    (strContains c.token_id "@" = true → (tokenIdIssues c).length = 2) ∧
    (5 ≤ c.account_id.length → c.consumer_key.length = 64 →
      c.consumer_secret.length = 64 → c.token_id.length = 64 →
      strContains c.token_id "@" = false → c.token_secret.length = 64 →
      validate_credentials_issues c = [] ∧ validate_credentials_ok c = true) := by
  refine ⟨?_, ?_, ?_, ?_, ?_, ?_, ?_⟩
  · unfold accountIdIssues; split <;> simp
  · unfold consumerKeyIssues; split <;> simp
  · unfold consumerSecretIssues; split <;> simp
  · unfold tokenSecretIssues; split <;> simp
  · intro h
    rw [tokenIdIssues_of_not_contains h]
    split <;> simp
  · intro h
    rw [tokenIdIssues_of_contains h]
    rfl
  · intro hacc hck hcs hti hat hts
    have e0 : (c.account_id == "") = false := beq_empty_false_of_pos (by omega)
    have e1 : (c.consumer_key == "") = false := beq_empty_false_of_pos (by omega)
    have e2 : (c.consumer_secret == "") = false := beq_empty_false_of_pos (by omega)
    have e3 : (c.token_id == "") = false := beq_empty_false_of_pos (by omega)
    have e4 : (c.token_secret == "") = false := beq_empty_false_of_pos (by omega)
    have hlt : ¬(c.account_id.length < 5) := by omega
    have hall : validate_credentials_issues c = [] := by
      simp [validate_credentials_issues, accountIdIssues, consumerKeyIssues,
        consumerSecretIssues, tokenIdIssues, tokenSecretIssues,
        e0, e1, e2, e3, e4, hck, hcs, hti, hts, hat, hlt]
    exact ⟨hall, by simp [validate_credentials_ok, hall]⟩

/-- Witness for C9 at the fully well-formed credential set. -/
theorem C9_rule_issue_counts_witness :
    5 ≤ goodCreds.account_id.length ∧ goodCreds.consumer_key.length = 64 ∧
    goodCreds.token_id.length = 64 ∧ strContains goodCreds.token_id "@" = false ∧
    (validate_credentials_issues goodCreds = [] ∧
      validate_credentials_ok goodCreds = true) :=
  ⟨by decide, by decide, by decide, by decide,
    (C9_rule_issue_counts goodCreds).2.2.2.2.2.2 (by decide) (by decide) (by decide)
      (by decide) (by decide) (by decide)⟩

/-- C10: a falsy (in particular empty-string) constructor argument for any
credential field is resolved from the corresponding environment variable; an
installed client always carries the resolved set, so an explicit empty string
never clears a field and the installed set can differ from the submitted one. -/
theorem C10_falsy_fallback (args env : Credentials) :
    (truthy args.account_id = false →
      (resolveCredentials args env).account_id = env.account_id) ∧
    (truthy args.consumer_key = false →
      (resolveCredentials args env).consumer_key = env.consumer_key) ∧
    (truthy args.consumer_secret = false →
      (resolveCredentials args env).consumer_secret = env.consumer_secret) ∧
    (truthy args.token_id = false →
      (resolveCredentials args env).token_id = env.token_id) ∧
    (truthy args.token_secret = false →
      (resolveCredentials args env).token_secret = env.token_secret) ∧
    (∀ st, NetSuiteClient_init args env = some st →
      st.creds = forceCreds (resolveCredentials args env)) ∧
    (args.account_id = some "" → ∀ v, env.account_id = some v → v ≠ "" →
      ∀ st, NetSuiteClient_init args env = some st →
        st.creds.account_id = v ∧ st.creds.account_id ≠ "") := by
  refine ⟨?_, ?_, ?_, ?_, ?_, ?_, ?_⟩
  · intro h; simp [resolveCredentials, pyOr, h]
  · intro h; simp [resolveCredentials, pyOr, h]
  · intro h; simp [resolveCredentials, pyOr, h]
  · intro h; simp [resolveCredentials, pyOr, h]
  · intro h; simp [resolveCredentials, pyOr, h]
  · intro st h
    by_cases hc : allConfigured (resolveCredentials args env) = true
    · simp only [NetSuiteClient_init, hc, if_true, Option.some.injEq] at h
      rw [← h]
    · simp [NetSuiteClient_init, hc] at h
  · intro ha v hv hne st h
    have hres : (resolveCredentials args env).account_id = some v := by
      simp [resolveCredentials, pyOr, ha, truthy, hv]
    have hcreds : st.creds = forceCreds (resolveCredentials args env) := by
      by_cases hc : allConfigured (resolveCredentials args env) = true
      · simp only [NetSuiteClient_init, hc, if_true, Option.some.injEq] at h
        rw [← h]
      · simp [NetSuiteClient_init, hc] at h
    have : st.creds.account_id = v := by
      rw [hcreds]
      simp [forceCreds, hres]
    exact ⟨this, this ▸ hne⟩

/-- Witness for C10: submitting an explicit empty account_id while the
environment holds one installs the environment value, not the empty string. -/
theorem C10_falsy_fallback_witness :
    argsEmptyAcct.account_id = some "" ∧
    envConfigured.account_id = some "ACCT123456" ∧ "ACCT123456" ≠ "" ∧
    NetSuiteClient_init argsEmptyAcct envConfigured = some stResolved ∧
    (stResolved.creds.account_id = "ACCT123456" ∧ stResolved.creds.account_id ≠ "") :=
  ⟨rfl, rfl, by decide, by decide,
    (C10_falsy_fallback argsEmptyAcct envConfigured).2.2.2.2.2.2 rfl "ACCT123456" rfl
      (by decide) stResolved (by decide)⟩
